import Mathlib

/-!
Verification development for the TSDF voxel-grid engine (KinectFusion style):
the marching-cubes triangle table and cube numbering conventions are embedded
from the source; the integrator, serialiser and extractor loops, whose sources
are absent, are modelled from the specification.
-/

namespace TSDF

set_option maxHeartbeats 1000000 in
/-- Rows 0 to 31 of the triangle table (see TRIANGLE_TABLE). -/
def TT_ROWS_0 : List (List Int) := [
  [-1, -1, -1, -1, -1, -1, -1, -1, -1, -1, -1, -1, -1, -1, -1, -1],
  [0, 4, 3, -1, -1, -1, -1, -1, -1, -1, -1, -1, -1, -1, -1, -1],
  [0, 1, 5, -1, -1, -1, -1, -1, -1, -1, -1, -1, -1, -1, -1, -1],
  [1, 2, 6, -1, -1, -1, -1, -1, -1, -1, -1, -1, -1, -1, -1, -1],
  [2, 3, 7, -1, -1, -1, -1, -1, -1, -1, -1, -1, -1, -1, -1, -1],
  [4, 8, 11, -1, -1, -1, -1, -1, -1, -1, -1, -1, -1, -1, -1, -1],
  [5, 9, 8, -1, -1, -1, -1, -1, -1, -1, -1, -1, -1, -1, -1, -1],
  [6, 10, 9, -1, -1, -1, -1, -1, -1, -1, -1, -1, -1, -1, -1, -1],
  [7, 11, 10, -1, -1, -1, -1, -1, -1, -1, -1, -1, -1, -1, -1, -1],
  [1, 5, 3, 3, 5, 4, -1, -1, -1, -1, -1, -1, -1, -1, -1, -1],
  [0, 2, 5, 5, 2, 6, -1, -1, -1, -1, -1, -1, -1, -1, -1, -1],
  [1, 3, 6, 6, 3, 7, -1, -1, -1, -1, -1, -1, -1, -1, -1, -1],
  [0, 4, 2, 2, 4, 7, -1, -1, -1, -1, -1, -1, -1, -1, -1, -1],
  [0, 8, 3, 3, 8, 11, -1, -1, -1, -1, -1, -1, -1, -1, -1, -1],
  [0, 1, 8, 8, 1, 9, -1, -1, -1, -1, -1, -1, -1, -1, -1, -1],
  [1, 2, 9, 9, 2, 10, -1, -1, -1, -1, -1, -1, -1, -1, -1, -1],
  [2, 3, 10, 10, 3, 11, -1, -1, -1, -1, -1, -1, -1, -1, -1, -1],
  [4, 5, 11, 11, 5, 9, -1, -1, -1, -1, -1, -1, -1, -1, -1, -1],
  [5, 6, 8, 8, 6, 10, -1, -1, -1, -1, -1, -1, -1, -1, -1, -1],
  [6, 7, 9, 9, 7, 11, -1, -1, -1, -1, -1, -1, -1, -1, -1, -1],
  [4, 8, 7, 7, 8, 10, -1, -1, -1, -1, -1, -1, -1, -1, -1, -1],
  [0, 4, 3, 1, 2, 6, -1, -1, -1, -1, -1, -1, -1, -1, -1, -1],
  [0, 4, 3, 5, 9, 8, -1, -1, -1, -1, -1, -1, -1, -1, -1, -1],
  [0, 4, 3, 7, 11, 10, -1, -1, -1, -1, -1, -1, -1, -1, -1, -1],
  [0, 1, 5, 2, 3, 7, -1, -1, -1, -1, -1, -1, -1, -1, -1, -1],
  [0, 1, 5, 4, 8, 11, -1, -1, -1, -1, -1, -1, -1, -1, -1, -1],
  [0, 1, 5, 6, 10, 9, -1, -1, -1, -1, -1, -1, -1, -1, -1, -1],
  [1, 2, 6, 5, 9, 8, -1, -1, -1, -1, -1, -1, -1, -1, -1, -1],
  [1, 2, 6, 7, 11, 10, -1, -1, -1, -1, -1, -1, -1, -1, -1, -1],
  [2, 3, 7, 4, 8, 11, -1, -1, -1, -1, -1, -1, -1, -1, -1, -1],
  [2, 3, 7, 6, 10, 9, -1, -1, -1, -1, -1, -1, -1, -1, -1, -1],
  [4, 8, 11, 6, 10, 9, -1, -1, -1, -1, -1, -1, -1, -1, -1, -1]]

set_option maxHeartbeats 1000000 in
/-- Rows 32 to 63 of the triangle table (see TRIANGLE_TABLE). -/
def TT_ROWS_1 : List (List Int) := [
  [5, 9, 8, 7, 11, 10, -1, -1, -1, -1, -1, -1, -1, -1, -1, -1],
  [0, 4, 3, 6, 10, 9, -1, -1, -1, -1, -1, -1, -1, -1, -1, -1],
  [0, 1, 5, 7, 11, 10, -1, -1, -1, -1, -1, -1, -1, -1, -1, -1],
  [2, 3, 7, 5, 9, 8, -1, -1, -1, -1, -1, -1, -1, -1, -1, -1],
  [1, 2, 6, 4, 8, 11, -1, -1, -1, -1, -1, -1, -1, -1, -1, -1],
  [4, 6, 5, 4, 3, 6, 6, 3, 2, -1, -1, -1, -1, -1, -1, -1],
  [5, 7, 6, 5, 0, 7, 7, 0, 3, -1, -1, -1, -1, -1, -1, -1],
  [6, 4, 7, 6, 1, 4, 4, 1, 0, -1, -1, -1, -1, -1, -1, -1],
  [7, 5, 4, 7, 2, 5, 5, 2, 1, -1, -1, -1, -1, -1, -1, -1],
  [0, 10, 8, 0, 1, 10, 10, 1, 6, -1, -1, -1, -1, -1, -1, -1],
  [8, 2, 10, 8, 5, 2, 2, 5, 1, -1, -1, -1, -1, -1, -1, -1],
  [10, 0, 2, 10, 9, 0, 0, 9, 5, -1, -1, -1, -1, -1, -1, -1],
  [2, 8, 0, 2, 6, 8, 8, 6, 9, -1, -1, -1, -1, -1, -1, -1],
  [5, 7, 4, 5, 9, 7, 7, 9, 10, -1, -1, -1, -1, -1, -1, -1],
  [4, 6, 7, 4, 8, 6, 6, 8, 9, -1, -1, -1, -1, -1, -1, -1],
  [7, 5, 6, 7, 11, 5, 5, 11, 8, -1, -1, -1, -1, -1, -1, -1],
  [6, 4, 5, 6, 10, 4, 4, 10, 11, -1, -1, -1, -1, -1, -1, -1],
  [8, 2, 0, 8, 11, 2, 2, 11, 7, -1, -1, -1, -1, -1, -1, -1],
  [0, 10, 2, 0, 4, 10, 10, 4, 11, -1, -1, -1, -1, -1, -1, -1],
  [2, 8, 10, 2, 3, 8, 8, 3, 4, -1, -1, -1, -1, -1, -1, -1],
  [10, 0, 8, 10, 7, 0, 0, 7, 3, -1, -1, -1, -1, -1, -1, -1],
  [1, 11, 9, 1, 2, 11, 11, 2, 7, -1, -1, -1, -1, -1, -1, -1],
  [9, 3, 11, 9, 6, 3, 3, 6, 2, -1, -1, -1, -1, -1, -1, -1],
  [11, 1, 3, 11, 10, 1, 1, 10, 6, -1, -1, -1, -1, -1, -1, -1],
  [3, 9, 1, 3, 7, 9, 9, 7, 10, -1, -1, -1, -1, -1, -1, -1],
  [3, 9, 11, 3, 0, 9, 9, 0, 5, -1, -1, -1, -1, -1, -1, -1],
  [11, 1, 9, 11, 4, 1, 1, 4, 0, -1, -1, -1, -1, -1, -1, -1],
  [9, 3, 1, 9, 8, 3, 3, 8, 4, -1, -1, -1, -1, -1, -1, -1],
  [1, 11, 3, 1, 5, 11, 11, 5, 8, -1, -1, -1, -1, -1, -1, -1],
  [1, 5, 3, 3, 5, 4, 6, 10, 9, -1, -1, -1, -1, -1, -1, -1],
  [1, 5, 3, 3, 5, 4, 7, 11, 10, -1, -1, -1, -1, -1, -1, -1],
  [0, 8, 3, 3, 8, 11, 1, 2, 6, -1, -1, -1, -1, -1, -1, -1]]

set_option maxHeartbeats 1000000 in
/-- Rows 64 to 95 of the triangle table (see TRIANGLE_TABLE). -/
def TT_ROWS_2 : List (List Int) := [
  [1, 2, 9, 9, 2, 10, 0, 4, 3, -1, -1, -1, -1, -1, -1, -1],
  [0, 4, 2, 2, 4, 7, 5, 9, 8, -1, -1, -1, -1, -1, -1, -1],
  [0, 4, 2, 2, 4, 7, 6, 10, 9, -1, -1, -1, -1, -1, -1, -1],
  [0, 8, 3, 3, 8, 11, 6, 10, 9, -1, -1, -1, -1, -1, -1, -1],
  [5, 6, 8, 8, 6, 10, 0, 4, 3, -1, -1, -1, -1, -1, -1, -1],
  [6, 7, 9, 9, 7, 11, 0, 4, 3, -1, -1, -1, -1, -1, -1, -1],
  [0, 2, 5, 5, 2, 6, 4, 8, 11, -1, -1, -1, -1, -1, -1, -1],
  [0, 2, 5, 5, 2, 6, 7, 11, 10, -1, -1, -1, -1, -1, -1, -1],
  [2, 3, 10, 10, 3, 11, 0, 1, 5, -1, -1, -1, -1, -1, -1, -1],
  [4, 8, 7, 7, 8, 10, 0, 1, 5, -1, -1, -1, -1, -1, -1, -1],
  [0, 1, 8, 8, 1, 9, 2, 3, 7, -1, -1, -1, -1, -1, -1, -1],
  [0, 1, 8, 8, 1, 9, 5, 9, 8, -1, -1, -1, -1, -1, -1, -1],
  [6, 7, 9, 9, 7, 11, 0, 1, 5, -1, -1, -1, -1, -1, -1, -1],
  [1, 3, 6, 6, 3, 7, 4, 8, 11, -1, -1, -1, -1, -1, -1, -1],
  [1, 3, 6, 6, 3, 7, 5, 9, 8, -1, -1, -1, -1, -1, -1, -1],
  [1, 2, 9, 9, 2, 10, 4, 8, 11, -1, -1, -1, -1, -1, -1, -1],
  [4, 5, 9, 4, 9, 11, 1, 2, 6, -1, -1, -1, -1, -1, -1, -1],
  [4, 8, 7, 7, 8, 10, 1, 2, 6, -1, -1, -1, -1, -1, -1, -1],
  [4, 5, 9, 4, 9, 11, 2, 3, 7, -1, -1, -1, -1, -1, -1, -1],
  [5, 6, 8, 8, 6, 10, 2, 3, 7, -1, -1, -1, -1, -1, -1, -1],
  [2, 3, 10, 10, 3, 11, 5, 9, 8, -1, -1, -1, -1, -1, -1, -1],
  [0, 4, 3, 1, 2, 6, 5, 9, 8, -1, -1, -1, -1, -1, -1, -1],
  [0, 1, 5, 6, 10, 9, 4, 8, 11, -1, -1, -1, -1, -1, -1, -1],
  [5, 9, 8, 7, 11, 10, 0, 4, 3, -1, -1, -1, -1, -1, -1, -1],
  [4, 8, 11, 2, 3, 7, 0, 1, 5, -1, -1, -1, -1, -1, -1, -1],
  [0, 4, 3, 1, 2, 6, 7, 11, 10, -1, -1, -1, -1, -1, -1, -1],
  [0, 1, 5, 6, 10, 9, 2, 3, 7, -1, -1, -1, -1, -1, -1, -1],
  [5, 9, 8, 7, 11, 10, 1, 2, 6, -1, -1, -1, -1, -1, -1, -1],
  [4, 8, 11, 2, 3, 7, 6, 10, 9, -1, -1, -1, -1, -1, -1, -1],
  [4, 7, 5, 5, 7, 6, -1, -1, -1, -1, -1, -1, -1, -1, -1, -1],
  [0, 8, 2, 2, 8, 10, -1, -1, -1, -1, -1, -1, -1, -1, -1, -1],
  [1, 9, 3, 3, 9, 11, -1, -1, -1, -1, -1, -1, -1, -1, -1, -1]]

set_option maxHeartbeats 1000000 in
/-- Rows 96 to 127 of the triangle table (see TRIANGLE_TABLE). -/
def TT_ROWS_3 : List (List Int) := [
  [1, 7, 2, 1, 5, 7, 7, 5, 11, 5, 11, 8, -1, -1, -1, -1],
  [9, 2, 6, 9, 8, 2, 2, 8, 3, 8, 3, 4, -1, -1, -1, -1],
  [3, 10, 7, 3, 0, 10, 10, 0, 9, 0, 9, 5, -1, -1, -1, -1],
  [11, 0, 4, 11, 10, 0, 0, 10, 1, 10, 1, 6, -1, -1, -1, -1],
  [1, 5, 3, 3, 5, 4, 6, 7, 9, 9, 7, 11, -1, -1, -1, -1],
  [0, 4, 2, 2, 4, 7, 5, 6, 8, 8, 6, 10, -1, -1, -1, -1],
  [0, 8, 3, 3, 8, 11, 1, 2, 9, 9, 2, 10, -1, -1, -1, -1],
  [11, 9, 4, 4, 9, 2, 2, 4, 0, 9, 6, 2, -1, -1, -1, -1],
  [9, 1, 8, 8, 1, 7, 7, 8, 4, 1, 2, 7, -1, -1, -1, -1],
  [8, 0, 11, 11, 0, 6, 6, 11, 7, 0, 1, 6, -1, -1, -1, -1],
  [11, 3, 10, 10, 3, 5, 5, 10, 6, 3, 0, 5, -1, -1, -1, -1],
  [10, 2, 9, 9, 2, 4, 4, 9, 5, 2, 3, 4, -1, -1, -1, -1],
  [1, 3, 5, 5, 3, 10, 10, 5, 8, 3, 7, 10, -1, -1, -1, -1],
  [0, 2, 4, 4, 2, 9, 9, 4, 11, 2, 6, 9, -1, -1, -1, -1],
  [3, 1, 7, 7, 1, 8, 8, 7, 10, 1, 5, 8, -1, -1, -1, -1],
  [3, 11, 0, 0, 11, 6, 6, 0, 5, 11, 10, 6, -1, -1, -1, -1],
  [2, 10, 3, 3, 10, 5, 5, 3, 4, 10, 9, 5, -1, -1, -1, -1],
  [1, 9, 2, 2, 9, 4, 4, 2, 7, 9, 8, 4, -1, -1, -1, -1],
  [0, 8, 1, 1, 8, 7, 7, 1, 6, 8, 11, 7, -1, -1, -1, -1],
  [4, 5, 6, 4, 6, 3, 6, 3, 2, 7, 11, 10, -1, -1, -1, -1],
  [5, 6, 7, 5, 7, 0, 7, 0, 3, 4, 8, 11, -1, -1, -1, -1],
  [6, 7, 4, 6, 4, 1, 4, 1, 0, 5, 9, 8, -1, -1, -1, -1],
  [7, 4, 5, 7, 5, 2, 5, 2, 1, 6, 10, 9, -1, -1, -1, -1],
  [0, 8, 10, 0, 10, 1, 10, 1, 6, 2, 3, 7, -1, -1, -1, -1],
  [8, 10, 2, 8, 2, 5, 2, 5, 1, 0, 3, 4, -1, -1, -1, -1],
  [10, 2, 0, 10, 0, 9, 0, 9, 5, 4, 8, 11, -1, -1, -1, -1],
  [2, 0, 8, 2, 8, 6, 8, 6, 9, 7, 11, 10, -1, -1, -1, -1],
  [5, 4, 7, 5, 7, 9, 7, 9, 10, 1, 2, 6, -1, -1, -1, -1],
  [4, 7, 6, 4, 6, 8, 6, 8, 9, 0, 5, 1, -1, -1, -1, -1],
  [7, 6, 5, 7, 5, 11, 5, 11, 8, 0, 4, 3, -1, -1, -1, -1],
  [6, 5, 4, 6, 4, 10, 4, 10, 11, 2, 3, 7, -1, -1, -1, -1],
  [8, 0, 2, 8, 2, 11, 2, 11, 7, 6, 10, 9, -1, -1, -1, -1]]

set_option maxHeartbeats 1000000 in
/-- Rows 128 to 159 of the triangle table (see TRIANGLE_TABLE). -/
def TT_ROWS_4 : List (List Int) := [
  [0, 2, 10, 0, 10, 4, 10, 4, 11, 5, 9, 8, -1, -1, -1, -1],
  [2, 10, 8, 2, 8, 3, 8, 3, 4, 0, 1, 5, -1, -1, -1, -1],
  [10, 8, 0, 10, 0, 7, 0, 7, 3, 1, 2, 6, -1, -1, -1, -1],
  [1, 9, 11, 1, 11, 2, 11, 2, 7, 0, 4, 3, -1, -1, -1, -1],
  [9, 11, 3, 9, 3, 6, 3, 6, 2, 0, 1, 5, -1, -1, -1, -1],
  [11, 3, 1, 11, 1, 10, 1, 10, 6, 5, 9, 8, -1, -1, -1, -1],
  [3, 1, 9, 3, 9, 7, 9, 7, 10, 4, 8, 11, -1, -1, -1, -1],
  [3, 11, 9, 3, 9, 0, 9, 0, 5, 1, 2, 6, -1, -1, -1, -1],
  [11, 9, 1, 11, 1, 4, 1, 4, 0, 2, 3, 7, -1, -1, -1, -1],
  [9, 1, 3, 9, 3, 8, 3, 8, 4, 7, 11, 10, -1, -1, -1, -1],
  [1, 3, 11, 1, 11, 5, 11, 5, 8, 6, 10, 9, -1, -1, -1, -1],
  [9, 4, 3, 5, 9, 8, 1, 2, 6, 7, 11, 10, -1, -1, -1, -1],
  [0, 1, 5, 4, 8, 11, 2, 3, 7, 6, 10, 9, -1, -1, -1, -1],
  [1, 9, 0, 0, 9, 7, 7, 0, 4, 9, 10, 7, -1, -1, -1, -1],
  [0, 8, 3, 3, 8, 6, 6, 3, 7, 8, 9, 6, -1, -1, -1, -1],
  [3, 11, 2, 2, 11, 5, 5, 2, 6, 11, 8, 5, -1, -1, -1, -1],
  [2, 10, 1, 1, 10, 4, 4, 1, 5, 10, 7, 4, -1, -1, -1, -1],
  [9, 11, 5, 5, 11, 2, 2, 5, 0, 11, 7, 2, -1, -1, -1, -1],
  [8, 10, 4, 4, 10, 1, 1, 4, 3, 10, 6, 1, -1, -1, -1, -1],
  [11, 9, 7, 7, 9, 0, 0, 7, 2, 9, 5, 0, -1, -1, -1, -1],
  [11, 3, 8, 8, 3, 6, 6, 8, 5, 3, 2, 6, -1, -1, -1, -1],
  [10, 2, 11, 11, 2, 5, 5, 11, 4, 2, 1, 5, -1, -1, -1, -1],
  [9, 1, 10, 10, 1, 4, 4, 10, 7, 1, 0, 4, -1, -1, -1, -1],
  [8, 0, 9, 9, 0, 7, 7, 9, 6, 0, 3, 7, -1, -1, -1, -1],
  [3, 1, 4, 4, 1, 10, 10, 4, 8, 1, 6, 10, -1, -1, -1, -1],
  [0, 1, 8, 8, 1, 9, 2, 3, 10, 10, 3, 11, -1, -1, -1, -1],
  [1, 3, 6, 6, 3, 7, 4, 5, 9, 4, 9, 11, -1, -1, -1, -1],
  [0, 2, 5, 5, 2, 6, 4, 8, 7, 7, 8, 10, -1, -1, -1, -1],
  [1, 8, 5, 1, 2, 8, 8, 2, 11, 2, 11, 7, -1, -1, -1, -1],
  [9, 4, 8, 9, 6, 4, 4, 6, 3, 6, 3, 2, -1, -1, -1, -1],
  [3, 5, 0, 3, 7, 5, 5, 7, 9, 7, 9, 10, -1, -1, -1, -1],
  [11, 6, 10, 11, 4, 6, 6, 4, 1, 4, 1, 0, -1, -1, -1, -1]]

set_option maxHeartbeats 1000000 in
/-- Rows 160 to 191 of the triangle table (see TRIANGLE_TABLE). -/
def TT_ROWS_5 : List (List Int) := [
  [4, 5, 7, 7, 5, 6, -1, -1, -1, -1, -1, -1, -1, -1, -1, -1],
  [0, 2, 8, 8, 2, 10, -1, -1, -1, -1, -1, -1, -1, -1, -1, -1],
  [1, 3, 9, 9, 3, 11, -1, -1, -1, -1, -1, -1, -1, -1, -1, -1],
  [0, 3, 4, 1, 6, 2, 5, 8, 9, -1, -1, -1, -1, -1, -1, -1],
  [0, 5, 1, 6, 9, 10, 4, 11, 8, -1, -1, -1, -1, -1, -1, -1],
  [5, 8, 9, 7, 10, 11, 0, 3, 4, -1, -1, -1, -1, -1, -1, -1],
  [4, 11, 8, 2, 7, 3, 0, 5, 1, -1, -1, -1, -1, -1, -1, -1],
  [0, 3, 4, 1, 6, 2, 7, 10, 11, -1, -1, -1, -1, -1, -1, -1],
  [0, 5, 1, 6, 9, 10, 2, 7, 3, -1, -1, -1, -1, -1, -1, -1],
  [5, 8, 9, 7, 10, 11, 1, 6, 2, -1, -1, -1, -1, -1, -1, -1],
  [4, 11, 8, 2, 7, 3, 6, 9, 10, -1, -1, -1, -1, -1, -1, -1],
  [1, 3, 5, 5, 3, 4, 6, 9, 10, -1, -1, -1, -1, -1, -1, -1],
  [1, 3, 5, 5, 3, 4, 7, 10, 11, -1, -1, -1, -1, -1, -1, -1],
  [0, 5, 2, 2, 5, 6, 4, 11, 8, -1, -1, -1, -1, -1, -1, -1],
  [0, 5, 2, 2, 5, 6, 7, 10, 11, -1, -1, -1, -1, -1, -1, -1],
  [1, 6, 3, 3, 6, 7, 4, 11, 8, -1, -1, -1, -1, -1, -1, -1],
  [1, 6, 3, 3, 6, 7, 5, 8, 9, -1, -1, -1, -1, -1, -1, -1],
  [0, 2, 4, 4, 2, 7, 5, 8, 9, -1, -1, -1, -1, -1, -1, -1],
  [0, 2, 4, 4, 2, 7, 6, 9, 10, -1, -1, -1, -1, -1, -1, -1],
  [0, 3, 8, 8, 3, 11, 1, 6, 2, -1, -1, -1, -1, -1, -1, -1],
  [0, 3, 8, 8, 3, 11, 6, 9, 10, -1, -1, -1, -1, -1, -1, -1],
  [0, 8, 1, 1, 8, 9, 2, 7, 3, -1, -1, -1, -1, -1, -1, -1],
  [0, 8, 1, 1, 8, 9, 5, 8, 9, -1, -1, -1, -1, -1, -1, -1],
  [1, 9, 2, 2, 9, 10, 0, 3, 4, -1, -1, -1, -1, -1, -1, -1],
  [1, 9, 2, 2, 9, 10, 4, 11, 8, -1, -1, -1, -1, -1, -1, -1],
  [2, 10, 3, 3, 10, 11, 0, 5, 1, -1, -1, -1, -1, -1, -1, -1],
  [2, 10, 3, 3, 10, 11, 5, 8, 9, -1, -1, -1, -1, -1, -1, -1],
  [4, 11, 5, 5, 11, 9, 1, 6, 2, -1, -1, -1, -1, -1, -1, -1],
  [4, 11, 5, 5, 11, 9, 2, 7, 3, -1, -1, -1, -1, -1, -1, -1],
  [5, 8, 6, 6, 8, 10, 0, 3, 4, -1, -1, -1, -1, -1, -1, -1],
  [5, 8, 6, 6, 8, 10, 2, 7, 3, -1, -1, -1, -1, -1, -1, -1],
  [6, 9, 7, 7, 9, 11, 0, 3, 4, -1, -1, -1, -1, -1, -1, -1]]

set_option maxHeartbeats 1000000 in
/-- Rows 192 to 223 of the triangle table (see TRIANGLE_TABLE). -/
def TT_ROWS_6 : List (List Int) := [
  [6, 9, 7, 7, 9, 11, 0, 5, 1, -1, -1, -1, -1, -1, -1, -1],
  [4, 7, 8, 8, 7, 10, 0, 5, 1, -1, -1, -1, -1, -1, -1, -1],
  [4, 7, 8, 8, 7, 10, 1, 6, 2, -1, -1, -1, -1, -1, -1, -1],
  [4, 5, 6, 4, 6, 3, 6, 2, 3, -1, -1, -1, -1, -1, -1, -1],
  [5, 6, 7, 5, 7, 0, 7, 3, 0, -1, -1, -1, -1, -1, -1, -1],
  [6, 7, 4, 6, 4, 1, 4, 0, 1, -1, -1, -1, -1, -1, -1, -1],
  [7, 4, 5, 7, 5, 2, 5, 1, 2, -1, -1, -1, -1, -1, -1, -1],
  [0, 8, 10, 0, 10, 1, 10, 6, 1, -1, -1, -1, -1, -1, -1, -1],
  [8, 10, 2, 8, 2, 5, 2, 1, 5, -1, -1, -1, -1, -1, -1, -1],
  [10, 2, 0, 10, 0, 9, 0, 5, 9, -1, -1, -1, -1, -1, -1, -1],
  [2, 0, 8, 2, 8, 6, 8, 9, 6, -1, -1, -1, -1, -1, -1, -1],
  [5, 4, 7, 5, 7, 9, 7, 10, 9, -1, -1, -1, -1, -1, -1, -1],
  [4, 7, 6, 4, 6, 8, 6, 9, 8, -1, -1, -1, -1, -1, -1, -1],
  [7, 6, 5, 7, 5, 11, 5, 8, 11, -1, -1, -1, -1, -1, -1, -1],
  [6, 5, 4, 6, 4, 10, 4, 11, 10, -1, -1, -1, -1, -1, -1, -1],
  [8, 0, 2, 8, 2, 11, 2, 7, 11, -1, -1, -1, -1, -1, -1, -1],
  [0, 2, 10, 0, 10, 4, 10, 11, 4, -1, -1, -1, -1, -1, -1, -1],
  [2, 10, 8, 2, 8, 3, 8, 4, 3, -1, -1, -1, -1, -1, -1, -1],
  [10, 8, 0, 10, 0, 7, 0, 3, 7, -1, -1, -1, -1, -1, -1, -1],
  [1, 9, 11, 1, 11, 2, 11, 7, 2, -1, -1, -1, -1, -1, -1, -1],
  [9, 11, 3, 9, 3, 6, 3, 2, 6, -1, -1, -1, -1, -1, -1, -1],
  [11, 3, 1, 11, 1, 10, 1, 6, 10, -1, -1, -1, -1, -1, -1, -1],
  [3, 1, 9, 3, 9, 7, 9, 10, 7, -1, -1, -1, -1, -1, -1, -1],
  [3, 11, 9, 3, 9, 0, 9, 5, 0, -1, -1, -1, -1, -1, -1, -1],
  [11, 9, 1, 11, 1, 4, 1, 0, 4, -1, -1, -1, -1, -1, -1, -1],
  [9, 1, 3, 9, 3, 8, 3, 4, 8, -1, -1, -1, -1, -1, -1, -1],
  [1, 3, 11, 1, 11, 5, 11, 8, 5, -1, -1, -1, -1, -1, -1, -1],
  [0, 3, 4, 6, 9, 10, -1, -1, -1, -1, -1, -1, -1, -1, -1, -1],
  [0, 5, 1, 7, 10, 11, -1, -1, -1, -1, -1, -1, -1, -1, -1, -1],
  [2, 7, 3, 5, 8, 9, -1, -1, -1, -1, -1, -1, -1, -1, -1, -1],
  [1, 6, 2, 4, 11, 8, -1, -1, -1, -1, -1, -1, -1, -1, -1, -1],
  [0, 3, 4, 1, 6, 2, -1, -1, -1, -1, -1, -1, -1, -1, -1, -1]]

set_option maxHeartbeats 1000000 in
/-- Rows 224 to 255 of the triangle table (see TRIANGLE_TABLE). -/
def TT_ROWS_7 : List (List Int) := [
  [0, 3, 4, 5, 8, 9, -1, -1, -1, -1, -1, -1, -1, -1, -1, -1],
  [0, 3, 4, 7, 10, 11, -1, -1, -1, -1, -1, -1, -1, -1, -1, -1],
  [0, 5, 1, 2, 7, 3, -1, -1, -1, -1, -1, -1, -1, -1, -1, -1],
  [0, 5, 1, 4, 11, 8, -1, -1, -1, -1, -1, -1, -1, -1, -1, -1],
  [0, 5, 1, 6, 9, 10, -1, -1, -1, -1, -1, -1, -1, -1, -1, -1],
  [1, 6, 2, 5, 8, 9, -1, -1, -1, -1, -1, -1, -1, -1, -1, -1],
  [1, 6, 2, 7, 10, 11, -1, -1, -1, -1, -1, -1, -1, -1, -1, -1],
  [2, 7, 3, 4, 11, 8, -1, -1, -1, -1, -1, -1, -1, -1, -1, -1],
  [2, 7, 3, 6, 9, 10, -1, -1, -1, -1, -1, -1, -1, -1, -1, -1],
  [4, 11, 8, 6, 9, 10, -1, -1, -1, -1, -1, -1, -1, -1, -1, -1],
  [5, 8, 9, 7, 10, 11, -1, -1, -1, -1, -1, -1, -1, -1, -1, -1],
  [1, 3, 5, 5, 3, 4, -1, -1, -1, -1, -1, -1, -1, -1, -1, -1],
  [0, 5, 2, 2, 5, 6, -1, -1, -1, -1, -1, -1, -1, -1, -1, -1],
  [1, 6, 3, 3, 6, 7, -1, -1, -1, -1, -1, -1, -1, -1, -1, -1],
  [0, 2, 4, 4, 2, 7, -1, -1, -1, -1, -1, -1, -1, -1, -1, -1],
  [0, 3, 8, 8, 3, 11, -1, -1, -1, -1, -1, -1, -1, -1, -1, -1],
  [0, 8, 1, 1, 8, 9, -1, -1, -1, -1, -1, -1, -1, -1, -1, -1],
  [1, 9, 2, 2, 9, 10, -1, -1, -1, -1, -1, -1, -1, -1, -1, -1],
  [2, 10, 3, 3, 10, 11, -1, -1, -1, -1, -1, -1, -1, -1, -1, -1],
  [4, 11, 5, 5, 11, 9, -1, -1, -1, -1, -1, -1, -1, -1, -1, -1],
  [5, 8, 6, 6, 8, 10, -1, -1, -1, -1, -1, -1, -1, -1, -1, -1],
  [6, 9, 7, 7, 9, 11, -1, -1, -1, -1, -1, -1, -1, -1, -1, -1],
  [4, 7, 8, 8, 7, 10, -1, -1, -1, -1, -1, -1, -1, -1, -1, -1],
  [0, 3, 4, -1, -1, -1, -1, -1, -1, -1, -1, -1, -1, -1, -1, -1],
  [0, 5, 1, -1, -1, -1, -1, -1, -1, -1, -1, -1, -1, -1, -1, -1],
  [1, 6, 2, -1, -1, -1, -1, -1, -1, -1, -1, -1, -1, -1, -1, -1],
  [2, 7, 3, -1, -1, -1, -1, -1, -1, -1, -1, -1, -1, -1, -1, -1],
  [4, 11, 8, -1, -1, -1, -1, -1, -1, -1, -1, -1, -1, -1, -1, -1],
  [5, 8, 9, -1, -1, -1, -1, -1, -1, -1, -1, -1, -1, -1, -1, -1],
  [6, 9, 10, -1, -1, -1, -1, -1, -1, -1, -1, -1, -1, -1, -1, -1],
  [7, 10, 11, -1, -1, -1, -1, -1, -1, -1, -1, -1, -1, -1, -1, -1],
  [-1, -1, -1, -1, -1, -1, -1, -1, -1, -1, -1, -1, -1, -1, -1, -1]]

/-- The 256 by 16 marching-cubes triangle table, transcribed row for row from
the table TRIANGLE_TABLE in the source file Test_TSDF_Integration.cpp.
Each row lists cube-edge indices of triangle vertices, padded with -1. -/
def TRIANGLE_TABLE : List (List Int) :=
  TT_ROWS_0 ++ TT_ROWS_1 ++ TT_ROWS_2 ++ TT_ROWS_3 ++
  TT_ROWS_4 ++ TT_ROWS_5 ++ TT_ROWS_6 ++ TT_ROWS_7

/-- Corner coordinate offsets exactly as listed in the source comment:
corner 0 = (x,y,z), 1 = (x,y,z+1), 2 = (x,y+1,z+1), 3 = (x,y+1,z),
4 = (x+1,y,z), 5 = (x+1,y,z+1), 6 = (x+1,y+1,z), 7 = (x+1,y+1,z+1). -/
def cornerOffset : Fin 8 → Nat × Nat × Nat
  | 0 => (0, 0, 0)
  | 1 => (0, 0, 1)
  | 2 => (0, 1, 1)
  | 3 => (0, 1, 0)
  | 4 => (1, 0, 0)
  | 5 => (1, 0, 1)
  | 6 => (1, 1, 0)
  | 7 => (1, 1, 1)

/-- Corner coordinate offsets as drawn in the cube diagram of the same source
comment, where corner 6 is the top front right corner (adjacent to corner 2
along edge 6) and corner 7 is the top back right corner (adjacent to corner 3
along edge 7): corners 6 and 7 exchange coordinates relative to the list
in `cornerOffset`. -/
def cornerOffsetDiagram : Fin 8 → Nat × Nat × Nat
  | 0 => (0, 0, 0)
  | 1 => (0, 0, 1)
  | 2 => (0, 1, 1)
  | 3 => (0, 1, 0)
  | 4 => (1, 0, 0)
  | 5 => (1, 0, 1)
  | 6 => (1, 1, 1)
  | 7 => (1, 1, 0)

/-- The edge-to-corner map from the source comment: edge 0 = {0,1},
1 = {1,2}, 2 = {2,3}, 3 = {3,0}, 4 = {0,4}, 5 = {1,5}, 6 = {2,6},
7 = {3,7}, 8 = {4,5}, 9 = {5,6}, 10 = {6,7}, 11 = {7,4}. -/
def edgeCorners : Fin 12 → Fin 8 × Fin 8
  | 0 => (0, 1)
  | 1 => (1, 2)
  | 2 => (2, 3)
  | 3 => (3, 0)
  | 4 => (0, 4)
  | 5 => (1, 5)
  | 6 => (2, 6)
  | 7 => (3, 7)
  | 8 => (4, 5)
  | 9 => (5, 6)
  | 10 => (6, 7)
  | 11 => (7, 4)

/-- Under a given corner-coordinate binding, an edge is a geometric cube edge
iff the coordinates of its two endpoint corners differ in exactly one axis by
exactly 1, i.e. the coordinatewise distances sum to 1. -/
def edgeIsGeometric (binding : Fin 8 → Nat × Nat × Nat) (e : Fin 12) : Bool :=
  let a := binding (edgeCorners e).1
  let b := binding (edgeCorners e).2
  Nat.dist a.1 b.1 + Nat.dist a.2.1 b.2.1 + Nat.dist a.2.2 b.2.2 == 1

/-- The cube edges incident to a given corner, in increasing edge order. -/
def cornerEdges (b : Fin 8) : List (Fin 12) :=
  (List.finRange 12).filter fun e =>
    (edgeCorners e).1 = b ∨ (edgeCorners e).2 = b

/-- A table row consists of exactly one triangle whose three entries are the
three cube edges incident to corner `b` (in any order), all remaining entries
being -1. -/
def rowSingleTriangleFor (b : Fin 8) (row : List Int) : Bool :=
  match row with
  | x :: y :: z :: rest =>
    rest.all (fun t => t == -1) &&
    (let inc : List Int := (cornerEdges b).map fun e => (e.val : Int)
     [x, y, z].all (fun t => inc.contains t) &&
     inc.all (fun t => [x, y, z].contains t) &&
     (x != y && x != z && y != z))
  | _ => false

/-- Structural well-formedness of one table row: 16 entries, a leading block
of 3·t entries (t ≤ 5) each in 0..11, followed exclusively by -1 entries. -/
def rowOk (row : List Int) : Bool :=
  let body := row.takeWhile fun x => x != -1
  row.length == 16 && body.length % 3 == 0 && decide (body.length ≤ 15) &&
  body.all (fun x => decide (0 ≤ x) && decide (x ≤ 11)) &&
  (row.drop body.length).all fun x => x == -1

/-- Every consecutive triple of a list consists of three pairwise distinct
entries. -/
def triplesDistinct : List Int → Bool
  | x :: y :: z :: rest => x != y && x != z && y != z && triplesDistinct rest
  | _ => true

/-- A voxel: truncated signed distance (normalised convention, so bounded by 1
once observed) and accumulated weight. Rationals stand in for the
single-precision floats of the source. -/
structure Voxel where
  distance : ℚ
  weight : ℚ
deriving DecidableEq

/-- Modelled from the spec: the voxel grid data model of section 3
(the TSDFVolume sources are absent from src/). Storage is a total function on
integer indices; `vx, vy, vz` are the derived voxel sizes, `ox, oy, oz` the
world origin, `trunc` the truncation distance and `wmax` the weight cap. -/
structure VoxelGrid where
  nx : ℕ
  ny : ℕ
  nz : ℕ
  vx : ℚ
  vy : ℚ
  vz : ℚ
  ox : ℚ
  oy : ℚ
  oz : ℚ
  trunc : ℚ
  wmax : ℚ
  voxels : ℕ → ℕ → ℕ → Voxel

/-- Modelled from the spec: pinhole camera of section 4.1 (the Camera sources
are absent from src/). The fields hold the intrinsics and the rows of the
inverse pose (rotation entries rab and translation ta), which is all the
integrator uses. -/
structure Camera where
  fx : ℚ
  fy : ℚ
  cx : ℚ
  cy : ℚ
  r00 : ℚ
  r01 : ℚ
  r02 : ℚ
  r10 : ℚ
  r11 : ℚ
  r12 : ℚ
  r20 : ℚ
  r21 : ℚ
  r22 : ℚ
  t0 : ℚ
  t1 : ℚ
  t2 : ℚ

/-- Modelled from the spec: world_to_pixel applies the inverse pose then the
intrinsic projection and also returns the camera-space depth (section 4.1). -/
def world_to_pixel (cam : Camera) (p : ℚ × ℚ × ℚ) : ℚ × ℚ × ℚ :=
  let xc := cam.r00 * p.1 + cam.r01 * p.2.1 + cam.r02 * p.2.2 + cam.t0
  let yc := cam.r10 * p.1 + cam.r11 * p.2.1 + cam.r12 * p.2.2 + cam.t1
  let zc := cam.r20 * p.1 + cam.r21 * p.2.1 + cam.r22 * p.2.2 + cam.t2
  (cam.fx * xc / zc + cam.cx, cam.fy * yc / zc + cam.cy, zc)

/-- Modelled from the spec: the world centre of voxel (i,j,k) is
origin + (i+0.5, j+0.5, k+0.5) * (vx,vy,vz) (sections 4.2 and 6). -/
def voxelCentre (g : VoxelGrid) (i j k : ℕ) : ℚ × ℚ × ℚ :=
  (g.ox + ((i : ℚ) + 1/2) * g.vx,
   g.oy + ((j : ℚ) + 1/2) * g.vy,
   g.oz + ((k : ℚ) + 1/2) * g.vz)

/-- A depth frame handed to the integrator: a row-major depth image (row v,
column u, value 0 meaning no measurement), its dimensions, and the camera. -/
structure DepthFrame where
  depth : ℕ → ℕ → ℕ
  width : ℕ
  height : ℕ
  cam : Camera

/-- Clamp a rational to the interval [lo, hi]. -/
def clampQ (x lo hi : ℚ) : ℚ := max lo (min x hi)

/-- Modelled from the spec: one voxel update of the TSDF integrator, steps a-g
of section 4.3 (the integrator sources are absent from src/). The voxel centre
is projected; the voxel is skipped when the camera-space depth is not positive,
the (floored) pixel falls outside the image, the measured depth is 0, or the
signed distance lies beyond -trunc; otherwise the normalised truncated
distance enters the weighted running average with unit sample weight and the
weight saturates at wmax. -/
def integrateVoxel (g : VoxelGrid) (f : DepthFrame) (i j k : ℕ) : Voxel :=
  let vox := g.voxels i j k
  let uvz := world_to_pixel f.cam (voxelCentre g i j k)
  let zc := uvz.2.2
  if zc ≤ 0 then vox
  else if ⌊uvz.1⌋ < 0 ∨ ⌊uvz.2.1⌋ < 0 ∨
      (f.width : ℤ) ≤ ⌊uvz.1⌋ ∨ (f.height : ℤ) ≤ ⌊uvz.2.1⌋ then vox
  else
    let dmeas := f.depth (⌊uvz.2.1⌋.toNat) (⌊uvz.1⌋.toNat)
    if dmeas = 0 then vox
    else
      let sdf : ℚ := (dmeas : ℚ) - zc
      if sdf < -g.trunc then vox
      else
        let tsdf := clampQ sdf (-g.trunc) g.trunc / g.trunc
        ⟨(vox.weight * vox.distance + 1 * tsdf) / (vox.weight + 1),
          min (vox.weight + 1) g.wmax⟩

/-- Modelled from the spec: integrate updates every voxel of the grid
independently (section 4.3); the grid parameters are untouched. -/
def integrate (g : VoxelGrid) (f : DepthFrame) : VoxelGrid :=
  { g with voxels := fun i j k => integrateVoxel g f i j k }

/-- The per-voxel update rule exactly as claim C5 words it: a voxel whose
centre projects to a valid measurement (camera-space depth positive, pixel
inside the image, measured depth nonzero) and whose signed distance satisfies
sdf ≥ -trunc receives d2 = (w·d + w_new·tsdf)/(w + w_new) and
w2 = min(w + w_new, w_max) with w_new = 1 and
tsdf = clamp(sdf, -trunc, trunc)/trunc; every other voxel is unchanged. -/
def claimC5Update (g : VoxelGrid) (f : DepthFrame) (i j k : ℕ) : Voxel :=
  let vox := g.voxels i j k
  let uvz := world_to_pixel f.cam (voxelCentre g i j k)
  let u := ⌊uvz.1⌋
  let v := ⌊uvz.2.1⌋
  let zc := uvz.2.2
  let dmeas := f.depth v.toNat u.toNat
  let sdf : ℚ := (dmeas : ℚ) - zc
  let tsdf := clampQ sdf (-g.trunc) g.trunc / g.trunc
  if 0 < zc ∧ 0 ≤ u ∧ 0 ≤ v ∧ u < (f.width : ℤ) ∧ v < (f.height : ℤ) ∧
      dmeas ≠ 0 ∧ -g.trunc ≤ sdf then
    ⟨(vox.weight * vox.distance + 1 * tsdf) / (vox.weight + 1),
      min (vox.weight + 1) g.wmax⟩
  else vox

/-- The per-voxel invariant of claim C3 in the normalised convention:
weight lies in [0, wmax] and an observed voxel has |distance| ≤ 1. -/
def VoxelInv (wmax : ℚ) (vox : Voxel) : Prop :=
  0 ≤ vox.weight ∧ vox.weight ≤ wmax ∧ (0 < vox.weight → |vox.distance| ≤ 1)

/-- Grid-wide invariant: positive truncation distance, nonnegative weight cap,
and every voxel satisfies the per-voxel invariant. -/
def GridInv (g : VoxelGrid) : Prop :=
  0 < g.trunc ∧ 0 ≤ g.wmax ∧ ∀ i j k, VoxelInv g.wmax (g.voxels i j k)

/-- A concrete camera for the closed witness instances: identity inverse pose
with unit focal lengths and zero principal point. -/
def camId : Camera := ⟨1, 1, 0, 0, 1, 0, 0, 0, 1, 0, 0, 0, 1, 0, 0, 0⟩

/-- A concrete empty 2-cube grid (all weights 0) for the witness instances. -/
def gEmpty : VoxelGrid := ⟨2, 2, 2, 1, 1, 1, 0, 0, 0, 1, 10, fun _ _ _ => ⟨0, 0⟩⟩

/-- A concrete frame of constant measured depth 5. -/
def fFive : DepthFrame := ⟨fun _ _ => 5, 4, 4, camId⟩

/-- A concrete blank frame: every pixel reads 0 (no measurement). -/
def fBlank : DepthFrame := ⟨fun _ _ => 0, 4, 4, camId⟩

/-- Little-endian 4-byte encoding of a 32-bit word (section 6 grid blob:
uint32 fields and float32 fields, the latter represented here by their 32-bit
patterns since the blob round-trip is bit-exact). -/
def u32le (n : ℕ) : List ℕ :=
  [n % 256, n / 256 % 256, n / 65536 % 256, n / 16777216 % 256]

/-- Modelled from the spec: the serialised grid state of section 6 (the
serialiser sources are absent from src/). Dimensions are uint32 values;
physical sizes, origin, truncation distance and weight cap are float32 values
kept as their 32-bit patterns; `voxels` is the flat record list of
(distance, weight) pairs in x-fastest order. -/
structure GridBlob where
  nx : ℕ
  ny : ℕ
  nz : ℕ
  sx : ℕ
  sy : ℕ
  sz : ℕ
  ox : ℕ
  oy : ℕ
  oz : ℕ
  trunc : ℕ
  wmax : ℕ
  voxels : List (ℕ × ℕ)
deriving DecidableEq

/-- The four magic bytes of the grid blob, spelling TSDF. -/
def MAGIC : List ℕ := [84, 83, 68, 70]

/-- Encoding of the flat voxel record array: each record is the little-endian
float32 pattern of the distance followed by that of the weight. -/
def encodeRecs (vs : List (ℕ × ℕ)) : List ℕ :=
  vs.flatMap fun r => u32le r.1 ++ u32le r.2

/-- The eleven 32-bit header words of the blob in writing order: dims nx ny
nz, physical sizes sx sy sz, origin ox oy oz, trunc, w_max. -/
def headerWords (g : GridBlob) : List ℕ :=
  [g.nx, g.ny, g.nz, g.sx, g.sy, g.sz, g.ox, g.oy, g.oz, g.trunc, g.wmax]

/-- Modelled from the spec: write the grid to its deterministic binary blob
(sections 4.6 and 6): magic, version byte 1, three uint32 dims, three float32
sizes, three float32 origin, float32 trunc, float32 w_max, then the records,
all multi-byte values little-endian. -/
def save (g : GridBlob) : List ℕ :=
  MAGIC ++ [1] ++ ((headerWords g).flatMap u32le ++ encodeRecs g.voxels)

/-- Read one little-endian uint32 from the head of a byte list. -/
def rdU32 : List ℕ → Option (ℕ × List ℕ)
  | b0 :: b1 :: b2 :: b3 :: rest =>
    some (b0 + 256 * b1 + 65536 * b2 + 16777216 * b3, rest)
  | _ => none

/-- Read `n` little-endian uint32 words from the head of a byte list. -/
def rdWords : ℕ → List ℕ → Option (List ℕ × List ℕ)
  | 0, bs => some ([], bs)
  | n + 1, bs => do
    let (w, bs1) ← rdU32 bs
    let (ws, bs2) ← rdWords n bs1
    some (w :: ws, bs2)

/-- Read `n` voxel records (two uint32 words each) from a byte list. -/
def rdRecords : ℕ → List ℕ → Option (List (ℕ × ℕ) × List ℕ)
  | 0, bs => some ([], bs)
  | n + 1, bs => do
    let (d, bs1) ← rdU32 bs
    let (w, bs2) ← rdU32 bs1
    let (rs, bs3) ← rdRecords n bs2
    some ((d, w) :: rs, bs3)

/-- Modelled from the spec: read a grid blob back, the exact inverse of
`save`; fails (returns none, the io_error of section 7) on a magic or version
mismatch, truncation, or trailing bytes. -/
def load (bs : List ℕ) : Option GridBlob :=
  match bs with
  | m0 :: m1 :: m2 :: m3 :: ver :: rest =>
    if [m0, m1, m2, m3] = MAGIC ∧ ver = 1 then
      match rdWords 11 rest with
      | some ([nx, ny, nz, sx, sy, sz, ox, oy, oz, tr, wm], r1) =>
        match rdRecords (nx * ny * nz) r1 with
        | some (vs, []) => some ⟨nx, ny, nz, sx, sy, sz, ox, oy, oz, tr, wm, vs⟩
        | _ => none
      | _ => none
    else none
  | _ => none

/-- Well-formedness of a grid state for serialisation: every stored word fits
in 32 bits and the record count equals nx·ny·nz. -/
def BlobWF (g : GridBlob) : Prop :=
  g.nx < 2 ^ 32 ∧ g.ny < 2 ^ 32 ∧ g.nz < 2 ^ 32 ∧
  g.sx < 2 ^ 32 ∧ g.sy < 2 ^ 32 ∧ g.sz < 2 ^ 32 ∧
  g.ox < 2 ^ 32 ∧ g.oy < 2 ^ 32 ∧ g.oz < 2 ^ 32 ∧
  g.trunc < 2 ^ 32 ∧ g.wmax < 2 ^ 32 ∧
  (∀ p ∈ g.voxels, p.1 < 2 ^ 32 ∧ p.2 < 2 ^ 32) ∧
  g.voxels.length = g.nx * g.ny * g.nz

/-- A concrete one-voxel grid state for the serialisation witness. -/
def gBlob1 : GridBlob := ⟨1, 1, 1, 1000, 1000, 1000, 0, 0, 0, 40, 64, [(3, 4)]⟩

/-- The Raycaster class of Raycaster.hpp: image dimensions are stored in
unsigned 16-bit fields m_width and m_height. -/
structure Raycaster where
  m_width : ℕ
  m_height : ℕ
deriving DecidableEq

/-- Conversion of a C++ int to uint16_t: reduction modulo 2^16 (the value is
taken to the unique representative in [0, 65536)). -/
def uint16OfInt (n : ℤ) : ℕ := (n % 65536).toNat

/-- The two-argument Raycaster constructor: both dimensions pass through the
int-to-uint16 conversion when stored. -/
def Raycaster.make (width height : ℤ) : Raycaster :=
  ⟨uint16OfInt width, uint16OfInt height⟩

/-- The zero-argument Raycaster constructor: the default arguments are
width 640 and height 480. -/
def Raycaster.makeDefault : Raycaster := Raycaster.make 640 480

/-- The voxel at corner b of the cube anchored at (i,j,k), under the corner
binding of the source coordinate list (`cornerOffset`). -/
def cornerVoxel (g : VoxelGrid) (i j k : ℕ) (b : Fin 8) : Voxel :=
  g.voxels (i + (cornerOffset b).1) (j + (cornerOffset b).2.1)
    (k + (cornerOffset b).2.2)

/-- Modelled from the spec: the 8-bit cube case of section 4.5 step 2, bit b
set iff the distance at corner b is negative (the extractor sources are
absent from src/). -/
def cubeCase (g : VoxelGrid) (i j k : ℕ) : ℕ :=
  ∑ b : Fin 8, if (cornerVoxel g i j k b).distance < 0 then 2 ^ b.val else 0

/-- Split a list into consecutive triples, dropping a ragged tail. -/
def triples : List Int → List (Int × Int × Int)
  | a :: b :: c :: rest => (a, b, c) :: triples rest
  | _ => []

/-- The triangles encoded by one triangle-table row: the consecutive triples
of the entries before the first -1 terminator. -/
def rowTriangles (row : List Int) : List (Int × Int × Int) :=
  triples (row.takeWhile fun x => x != -1)

/-- Modelled from the spec: the triangles of one cube at the level of edge
indices (section 4.5 steps 2 and 3): the cube is skipped when any corner is
unobserved (weight 0), otherwise the row of the triangle table selected by
the cube case is read off. -/
def trianglesForCube (g : VoxelGrid) (i j k : ℕ) : List (Int × Int × Int) :=
  if ∃ b : Fin 8, (cornerVoxel g i j k b).weight = 0 then []
  else rowTriangles (TRIANGLE_TABLE.getD (cubeCase g i j k) [])

/-- Modelled from the spec: extract iterates over all cubes (i,j,k) with
i < nx-1, j < ny-1, k < nz-1 and concatenates their triangles. -/
def extract (g : VoxelGrid) : List (Int × Int × Int) :=
  (List.range (g.nx - 1)).flatMap fun i =>
    (List.range (g.ny - 1)).flatMap fun j =>
      (List.range (g.nz - 1)).flatMap fun k => trianglesForCube g i j k

/-- A concrete fully observed grid with every distance negative (all corners
inside) for the witness instances. -/
def gInside : VoxelGrid := ⟨2, 2, 2, 1, 1, 1, 0, 0, 0, 1, 10, fun _ _ _ => ⟨-1, 1⟩⟩
set_option maxHeartbeats 4000000 in
set_option maxRecDepth 20000 in
/-- C7: the triangle table has 256 rows and every row is a prefix of 3·t
entries (t ≤ 5, whole triangles only), each entry an edge index in 0..11,
followed exclusively by -1 entries; in particular every row ends in -1. -/
theorem c7_table_rows_well_formed :
    TRIANGLE_TABLE.length = 256 ∧ TRIANGLE_TABLE.all rowOk = true := by
  constructor
  · rfl
  · decide

set_option maxHeartbeats 4000000 in
set_option maxRecDepth 20000 in
/-- C10: in every row of the triangle table, each consecutive triple of
non-negative entries consists of three pairwise distinct edge indices, so no
row describes a degenerate triangle. -/
theorem c10_no_degenerate_triangles :
    TRIANGLE_TABLE.all
      (fun row => triplesDistinct (row.takeWhile fun x => x != -1)) = true := by
  decide

set_option maxHeartbeats 4000000 in
set_option maxRecDepth 20000 in
/-- C1 (failing input): the row of TRIANGLE_TABLE at index 2^2 = 4 is
[2, 3, 7, -1, ...], which is the single triangle of the three edges incident
to corner 3 (its source annotation reads pattern 0000 1000, vertex 3 only),
not the triangle of the three edges {1, 2, 6} incident to corner 2 that the
direct lookup TRIANGLE_TABLE[mc] at mc = 4 requires. -/
theorem c1_table_misordered_at_4 :
    (TRIANGLE_TABLE.getD 4 []).take 4 = [2, 3, 7, -1] ∧
    rowSingleTriangleFor 2 (TRIANGLE_TABLE.getD 4 []) = false ∧
    rowSingleTriangleFor 3 (TRIANGLE_TABLE.getD 4 []) = true ∧
    (cornerEdges 2).map (fun e => (e.val : Int)) = [1, 2, 6] := by
  refine ⟨rfl, by decide, by decide, by decide⟩

/-- C2 (counterexample): under the corner binding written in the source
coordinate list (`cornerOffset`), edge 6 joins corner 2 = (0,1,1) and
corner 6 = (1,1,0), whose coordinates differ in two axes (x and z), so edge 6
is a face diagonal, not a geometric cube edge. -/
theorem c2_edge6_not_geometric :
    edgeIsGeometric cornerOffset 6 = false ∧
    cornerOffset 2 = (0, 1, 1) ∧ cornerOffset 6 = (1, 1, 0) ∧
    edgeCorners 6 = (2, 6) := by
  decide

/-- C2 (amended): under the corner binding drawn in the cube diagram of the
same source comment (`cornerOffsetDiagram`, which exchanges the coordinates of
corners 6 and 7 relative to the coordinate list), every one of the 12 edge
indices used by the triangle table joins two corners whose integer coordinates
differ in exactly one axis by exactly 1. -/
theorem c2_all_edges_geometric_diagram :
    ∀ e : Fin 12, edgeIsGeometric cornerOffsetDiagram e = true := by
  decide


lemma updated_voxel_inv {wmax T w d x : ℚ} (hT : 0 < T) (hwm : 0 ≤ wmax)
    (hw0 : 0 ≤ w) (hd : 0 < w → |d| ≤ 1) :
    VoxelInv wmax ⟨(w * d + 1 * (clampQ x (-T) T / T)) / (w + 1),
      min (w + 1) wmax⟩ := by
  have hclamp : |clampQ x (-T) T| ≤ T := by
    rw [abs_le]
    exact ⟨le_max_left _ _, max_le (by linarith) (min_le_right _ _)⟩
  have htsdf : |clampQ x (-T) T / T| ≤ 1 := by
    rw [abs_div, abs_of_pos hT, div_le_one hT]
    exact hclamp
  have hwd : |w * d| ≤ w := by
    rcases eq_or_lt_of_le hw0 with h0 | h0
    · rw [← h0, zero_mul, abs_zero]
    · rw [abs_mul, abs_of_pos h0]
      calc w * |d| ≤ w * 1 := mul_le_mul_of_nonneg_left (hd h0) h0.le
        _ = w := mul_one w
  have hpos : (0 : ℚ) < w + 1 := by linarith
  refine ⟨le_min (by linarith) hwm, min_le_right _ _, fun _ => ?_⟩
  rw [abs_div, abs_of_pos hpos, div_le_one hpos]
  calc |w * d + 1 * (clampQ x (-T) T / T)|
      ≤ |w * d| + |1 * (clampQ x (-T) T / T)| := abs_add _ _
    _ ≤ w + 1 := by rw [one_mul]; linarith

lemma integrateVoxel_inv (g : VoxelGrid) (f : DepthFrame) (i j k : ℕ)
    (htr : 0 < g.trunc) (hwm : 0 ≤ g.wmax)
    (h : VoxelInv g.wmax (g.voxels i j k)) :
    VoxelInv g.wmax (integrateVoxel g f i j k) := by
  obtain ⟨hw0, hwc, hd⟩ := h
  simp only [integrateVoxel]
  split_ifs with h1 h2 h3 h4
  · exact ⟨hw0, hwc, hd⟩
  · exact ⟨hw0, hwc, hd⟩
  · exact ⟨hw0, hwc, hd⟩
  · exact ⟨hw0, hwc, hd⟩
  · exact updated_voxel_inv htr hwm hw0 hd

lemma integrate_gridInv {g : VoxelGrid} (f : DepthFrame) (h : GridInv g) :
    GridInv (integrate g f) :=
  ⟨h.1, h.2.1, fun i j k => integrateVoxel_inv g f i j k h.1 h.2.1 (h.2.2 i j k)⟩

lemma foldl_integrate_gridInv (frames : List DepthFrame) {g : VoxelGrid}
    (h : GridInv g) : GridInv (frames.foldl integrate g) := by
  induction frames generalizing g with
  | nil => exact h
  | cons f fs ih => exact ih (integrate_gridInv f h)

lemma foldl_integrate_wmax (frames : List DepthFrame) (g : VoxelGrid) :
    (frames.foldl integrate g).wmax = g.wmax := by
  induction frames generalizing g with
  | nil => rfl
  | cons f fs ih => exact ih (integrate g f)

/-- C3: after any sequence of integrate calls on a grid created empty (all
weights 0), provided the grid is well formed (trunc > 0 and w_max ≥ 0, per
section 7 a nonpositive trunc is an invalid_argument), every voxel has weight
in [0, w_max] and every voxel with positive weight has |distance| ≤ 1
(the normalised convention). -/
theorem c3_integrate_invariant (g : VoxelGrid) (frames : List DepthFrame)
    (htr : 0 < g.trunc) (hwm : 0 ≤ g.wmax)
    (hinit : ∀ i j k, (g.voxels i j k).weight = 0) (i j k : ℕ) :
    VoxelInv g.wmax ((frames.foldl integrate g).voxels i j k) := by
  have h0 : GridInv g := by
    refine ⟨htr, hwm, fun a b c => ⟨(hinit a b c).symm.le, ?_, ?_⟩⟩
    · exact (hinit a b c).le.trans hwm
    · intro hpos
      rw [hinit a b c] at hpos
      exact absurd hpos (lt_irrefl 0)
  have hall := (foldl_integrate_gridInv frames h0).2.2 i j k
  rwa [foldl_integrate_wmax frames g] at hall

/-- C3 witness: the invariant instantiated on a concrete empty 2-cube grid
after one frame of constant measured depth 5. -/
theorem c3_integrate_invariant_witness :
    VoxelInv (10 : ℚ) (([fFive].foldl integrate gEmpty).voxels 0 0 0) :=
  c3_integrate_invariant gEmpty [fFive] (by norm_num [gEmpty])
    (by norm_num [gEmpty]) (fun _ _ _ => rfl) 0 0 0

/-- C5: during integrate, every voxel whose centre projects to a valid
measurement (camera-space depth positive, floored pixel inside the image,
measured depth nonzero) and whose signed distance sdf = d_meas - z_cam
satisfies sdf ≥ -trunc is updated to the weighted running average with unit
sample weight and saturating weight; every voxel failing any condition is
left unchanged. -/
theorem c5_integrate_update_rule (g : VoxelGrid) (f : DepthFrame) (i j k : ℕ) :
    (integrate g f).voxels i j k = claimC5Update g f i j k := by
  show integrateVoxel g f i j k = claimC5Update g f i j k
  simp only [integrateVoxel, claimC5Update]
  by_cases h1 : (world_to_pixel f.cam (voxelCentre g i j k)).2.2 ≤ 0
  · rw [if_pos h1, if_neg]
    intro hC
    exact absurd hC.1 (not_lt.mpr h1)
  · rw [if_neg h1]
    by_cases h2 : ⌊(world_to_pixel f.cam (voxelCentre g i j k)).1⌋ < 0 ∨
        ⌊(world_to_pixel f.cam (voxelCentre g i j k)).2.1⌋ < 0 ∨
        (f.width : ℤ) ≤ ⌊(world_to_pixel f.cam (voxelCentre g i j k)).1⌋ ∨
        (f.height : ℤ) ≤ ⌊(world_to_pixel f.cam (voxelCentre g i j k)).2.1⌋
    · rw [if_pos h2, if_neg]
      intro hC
      obtain ⟨-, hu0, hv0, huw, hvh, -, -⟩ := hC
      rcases h2 with h | h | h | h
      · exact absurd hu0 (not_le.mpr h)
      · exact absurd hv0 (not_le.mpr h)
      · exact absurd huw (not_lt.mpr h)
      · exact absurd hvh (not_lt.mpr h)
    · rw [if_neg h2]
      push_neg at h2
      obtain ⟨hu0, hv0, huw, hvh⟩ := h2
      by_cases h3 : f.depth (⌊(world_to_pixel f.cam (voxelCentre g i j k)).2.1⌋.toNat)
          (⌊(world_to_pixel f.cam (voxelCentre g i j k)).1⌋.toNat) = 0
      · rw [if_pos h3, if_neg]
        intro hC
        exact absurd h3 hC.2.2.2.2.2.1
      · rw [if_neg h3]
        by_cases h4 : ((f.depth (⌊(world_to_pixel f.cam (voxelCentre g i j k)).2.1⌋.toNat)
            (⌊(world_to_pixel f.cam (voxelCentre g i j k)).1⌋.toNat) : ℚ) -
            (world_to_pixel f.cam (voxelCentre g i j k)).2.2) < -g.trunc
        · rw [if_pos h4, if_neg]
          intro hC
          exact absurd hC.2.2.2.2.2.2 (not_le.mpr h4)
        · rw [if_neg h4, if_pos]
          exact ⟨not_le.mp h1, hu0, hv0, huw, hvh, h3, not_lt.mp h4⟩

/-- C6: an integrate call with a depth image all of whose pixels read 0
leaves every field of the grid unchanged; in the embedding integrate is a
total function, so it never fails on data-dependent input. -/
theorem c6_blank_frame_identity (g : VoxelGrid) (f : DepthFrame)
    (hblank : ∀ v u, f.depth v u = 0) : integrate g f = g := by
  have hv : (fun i j k => integrateVoxel g f i j k) = g.voxels := by
    funext i j k
    simp only [integrateVoxel, hblank]
    split_ifs <;> rfl
  show { g with voxels := fun i j k => integrateVoxel g f i j k } = g
  rw [hv]

/-- C6 witness: a concrete blank frame is the identity on a concrete grid. -/
theorem c6_blank_frame_witness : integrate gEmpty fBlank = gEmpty :=
  c6_blank_frame_identity gEmpty fBlank fun _ _ => rfl

lemma rdU32_u32le (n : ℕ) (h : n < 2 ^ 32) (rest : List ℕ) :
    rdU32 (u32le n ++ rest) = some (n, rest) := by
  simp only [u32le, rdU32, List.cons_append, List.nil_append]
  have hn : n % 256 + 256 * (n / 256 % 256) + 65536 * (n / 65536 % 256) +
      16777216 * (n / 16777216 % 256) = n := by omega
  rw [hn]

lemma rdWords_flatMap (ws : List ℕ) (rest : List ℕ)
    (h : ∀ w ∈ ws, w < 2 ^ 32) :
    rdWords ws.length (ws.flatMap u32le ++ rest) = some (ws, rest) := by
  induction ws with
  | nil => rfl
  | cons w ws ih =>
    have hw := h w (List.mem_cons_self w ws)
    have hws := ih fun q hq => h q (List.mem_cons_of_mem w hq)
    show rdWords (ws.length + 1) _ = _
    simp only [List.flatMap_cons, List.append_assoc] at *
    simp only [rdWords, rdU32_u32le w hw, hws, Option.bind_eq_bind,
      Option.some_bind]

lemma rdRecords_encodeRecs (vs : List (ℕ × ℕ)) (rest : List ℕ)
    (h : ∀ p ∈ vs, p.1 < 2 ^ 32 ∧ p.2 < 2 ^ 32) :
    rdRecords vs.length (encodeRecs vs ++ rest) = some (vs, rest) := by
  induction vs with
  | nil => rfl
  | cons p ps ih =>
    obtain ⟨hp1, hp2⟩ := h p (List.mem_cons_self p ps)
    have hps := ih fun q hq => h q (List.mem_cons_of_mem p hq)
    show rdRecords (ps.length + 1) _ = _
    simp only [encodeRecs, List.flatMap_cons, List.append_assoc] at *
    simp only [rdRecords, rdU32_u32le p.1 hp1, rdU32_u32le p.2 hp2, hps,
      Option.bind_eq_bind, Option.some_bind]

/-- C4: for every well-formed grid state, deserialising the serialised binary
blob yields the state again bit-exactly: load (save g) = some g. -/
theorem c4_save_load_roundtrip (g : GridBlob) (h : BlobWF g) :
    load (save g) = some g := by
  obtain ⟨h1, h2, h3, h4, h5, h6, h7, h8, h9, h10, h11, hv, hlen⟩ := h
  have hrec := rdRecords_encodeRecs g.voxels [] hv
  rw [List.append_nil] at hrec
  have hrec2 : rdRecords (g.nx * g.ny * g.nz) (encodeRecs g.voxels) =
      some (g.voxels, []) := by rw [← hlen]; exact hrec
  have hws : ∀ w ∈ headerWords g, w < 2 ^ 32 := by
    intro w hw
    simp only [headerWords, List.mem_cons, List.not_mem_nil, or_false] at hw
    rcases hw with rfl | rfl | rfl | rfl | rfl | rfl | rfl | rfl | rfl |
      rfl | rfl <;> assumption
  have hw11 : rdWords 11 ((headerWords g).flatMap u32le ++
      encodeRecs g.voxels) = some (headerWords g, encodeRecs g.voxels) :=
    rdWords_flatMap (headerWords g) (encodeRecs g.voxels) hws
  simp only [headerWords] at hw11
  simp only [save, MAGIC, load, List.cons_append, List.nil_append,
    List.append_assoc, and_self, if_true, headerWords, hw11, hrec2]

/-- C4 witness: the round trip on a concrete one-voxel grid state. -/
theorem c4_save_load_roundtrip_witness : load (save gBlob1) = some gBlob1 :=
  c4_save_load_roundtrip gBlob1 (by refine ⟨?_, ?_, ?_, ?_, ?_, ?_, ?_, ?_, ?_, ?_, ?_, ?_, ?_⟩ <;> decide)

/-- C9: the Raycaster constructor takes int dimensions but stores them in
unsigned 16-bit fields, so the stored width and height are the arguments
reduced modulo 2^16 (width 65536 is stored as 0); the zero-argument
constructor stores the defaults 640 by 480. -/
theorem c9_raycaster_uint16_fields (w h : ℤ) :
    (Raycaster.make w h).m_width < 65536 ∧
    (((Raycaster.make w h).m_width : ℤ) % 65536 = w % 65536) ∧
    (Raycaster.make w h).m_height < 65536 ∧
    (((Raycaster.make w h).m_height : ℤ) % 65536 = h % 65536) ∧
    Raycaster.makeDefault = ⟨640, 480⟩ ∧
    (Raycaster.make 65536 480).m_width = 0 := by
  refine ⟨?_, ?_, ?_, ?_, rfl, rfl⟩ <;>
    simp only [Raycaster.make, uint16OfInt] <;> omega

lemma flatMap_nil_of {α β : Type} (l : List α) (f : α → List β)
    (h : ∀ a, f a = []) : l.flatMap f = [] := by
  induction l with
  | nil => rfl
  | cons x xs ih => simp [List.flatMap_cons, h, ih]

lemma cubeCase_all_neg (g : VoxelGrid) (i j k : ℕ)
    (h : ∀ b : Fin 8, (cornerVoxel g i j k b).distance < 0) :
    cubeCase g i j k = 255 := by
  unfold cubeCase
  rw [Finset.sum_congr rfl fun b _ => if_pos (h b)]
  decide

lemma cubeCase_all_nonneg (g : VoxelGrid) (i j k : ℕ)
    (h : ∀ b : Fin 8, 0 ≤ (cornerVoxel g i j k b).distance) :
    cubeCase g i j k = 0 := by
  unfold cubeCase
  rw [Finset.sum_congr rfl fun b _ => if_neg (not_lt.mpr (h b))]
  exact Finset.sum_const_zero

/-- C8: an all-inside cube (case 255) or all-outside cube (case 0) produces
zero triangles; a cube with an unobserved (weight 0) corner is skipped; and
marching cubes over a fully unobserved grid extracts zero triangles. All four
are ordinary return values, not failures. -/
theorem c8_degenerate_cubes (g : VoxelGrid) (i j k : ℕ) :
    ((∀ b : Fin 8, (cornerVoxel g i j k b).distance < 0) →
      trianglesForCube g i j k = []) ∧
    ((∀ b : Fin 8, 0 ≤ (cornerVoxel g i j k b).distance) →
      trianglesForCube g i j k = []) ∧
    ((∃ b : Fin 8, (cornerVoxel g i j k b).weight = 0) →
      trianglesForCube g i j k = []) ∧
    ((∀ a b c : ℕ, (g.voxels a b c).weight = 0) → extract g = []) := by
  refine ⟨?_, ?_, ?_, ?_⟩
  · intro h
    unfold trianglesForCube
    split_ifs with hw
    · rfl
    · rw [cubeCase_all_neg g i j k h]
      rfl
  · intro h
    unfold trianglesForCube
    split_ifs with hw
    · rfl
    · rw [cubeCase_all_nonneg g i j k h]
      rfl
  · intro h
    unfold trianglesForCube
    rw [if_pos h]
  · intro h
    have hcube : ∀ a b c : ℕ, trianglesForCube g a b c = [] := by
      intro a b c
      unfold trianglesForCube
      rw [if_pos ⟨0, h _ _ _⟩]
    unfold extract
    refine flatMap_nil_of _ _ fun a => ?_
    refine flatMap_nil_of _ _ fun b => ?_
    exact flatMap_nil_of _ _ fun c => hcube a b c

/-- C8 witness: a concrete all-inside cube yields no triangles, and extract
on a concrete all-unobserved grid yields no triangles. -/
theorem c8_degenerate_cubes_witness :
    trianglesForCube gInside 0 0 0 = [] ∧ extract gEmpty = [] :=
  ⟨(c8_degenerate_cubes gInside 0 0 0).1
      (fun b => by norm_num [cornerVoxel, gInside]),
   (c8_degenerate_cubes gEmpty 0 0 0).2.2.2 (fun _ _ _ => rfl)⟩
end TSDF
